import Mathlib

/-!
# Verification of the snapshot visualization engine (viz-core.js)

A shallow embedding of the snapshot-based step/animate/autoplay
visualization engine: `createSnapshotVisualization` (session state and the
`stepForward` / `stepBackward` / `resetToStart` / `runStepAnimation` /
`render` operations) together with `createVisualizationAutoplaySkill`
(the timer-driven autoplay loop).

Modelling choices:
* JavaScript numbers are modelled as `Int` for step indices and
  millisecond timestamps (all quantities the engine manipulates are
  integers at the granularity the properties speak about), and as `ℚ`
  for the transition progress fraction, which is a real-valued quotient
  `(ts - startTs) / animationMs` clamped to `[0, 1]`.
* `performance.now()` timestamps and the page-visibility signal are
  inputs to each operation rather than ambient state.
* The JS `%` operator on numbers is the truncated remainder, `Int.tmod`.
* The cached canvas dimensions (`state.width` / `state.height`) and the
  drawing itself are DOM effects; `render` is modelled as producing a
  `RenderOutput` (status text and control disabled flags, lines 255-264
  of the source) while leaving the session fields untouched, which is
  exactly its effect on the modelled state.
-/

namespace Viz

/-- A snapshot: an opaque record carrying a human-readable `text`
description.  All other fields are never inspected by the engine, so the
model keeps only `text`. -/
structure Snapshot where
  text : String
deriving DecidableEq

/-- An in-flight animated transition (`state.animation` in the source):
target index, monotonic start time, and progress fraction in `[0,1]`. -/
structure Transition where
  toIndex : Int
  startTs : Int
  progress : ℚ
deriving DecidableEq

/-- The mutable session state of one engine instance: the current
snapshot sequence (replaceable on a rebuilding reset), the current step
index, and the optional in-flight transition. -/
structure EngineState where
  snapshots : List Snapshot
  stepIndex : Int
  animation : Option Transition
deriving DecidableEq

/-- The value returned by a caller-supplied `buildSnapshots` factory:
either an array of snapshots or some non-array value. -/
inductive SnapResult where
  | arr (xs : List Snapshot)
  | nonArray
deriving DecidableEq

/-- The construction/reset guard `Array.isArray(v) && v.length !== 0`
(negation of `!Array.isArray(snapshots) || snapshots.length === 0`). -/
def SnapResult.isValid : SnapResult → Bool
  | .arr xs => xs.length != 0
  | .nonArray => false

/-- The underlying list of a factory result (empty for a non-array). -/
def SnapResult.toList : SnapResult → List Snapshot
  | .arr xs => xs
  | .nonArray => []

/-- `Math.min` on (non-NaN) numbers. -/
def jsMin (a b : ℚ) : ℚ := if a ≤ b then a else b

/-- `Math.max` on (non-NaN) numbers. -/
def jsMax (a b : ℚ) : ℚ := if b ≤ a then a else b

/-- `clamp01(v) = Math.max(0, Math.min(1, v))`. -/
def clamp01 (v : ℚ) : ℚ := jsMax 0 (jsMin 1 v)

theorem jsMin_eq_min (a b : ℚ) : jsMin a b = min a b := by
  simp [jsMin, min_def]

theorem jsMax_eq_max (a b : ℚ) : jsMax a b = max a b := by
  rw [jsMax, max_def]
  rcases le_total a b with hab | hab
  · rcases eq_or_lt_of_le hab with rfl | hlt
    · simp
    · rw [if_neg (by exact not_le.mpr hlt), if_pos hab]
  · rw [if_pos hab]
    rcases eq_or_lt_of_le hab with rfl | hlt
    · simp
    · rw [if_neg (by exact not_le.mpr hlt)]

/-- `clamp01` agrees with the mathematical clamp to `[0, 1]`. -/
theorem clamp01_eq (v : ℚ) : clamp01 v = max 0 (min 1 v) := by
  rw [clamp01, jsMax_eq_max, jsMin_eq_min]

/-- Indexing `snapshots[i]`; under the session invariant the index is
always in bounds, so the default is never consulted. -/
def snapAt (xs : List Snapshot) (i : Int) : Snapshot :=
  xs.getD i.toNat ⟨""⟩

/-- What one `render()` pass writes to the status sink and the two step
controls (source lines 255-264).  `render` mutates none of the modelled
session fields — its other effects (canvas resize, clear, `draw`) land
on the DOM. -/
structure RenderOutput where
  statusText : String
  prevDisabled : Bool
  nextDisabled : Bool
deriving DecidableEq

def renderOutput (e : EngineState) : RenderOutput :=
  let snapshot := snapAt e.snapshots e.stepIndex
  let activeSnap :=
    match e.animation with
    | some t => snapAt e.snapshots t.toIndex
    | none => snapshot
  let total : Int := (e.snapshots.length : Int) - 1
  let idx : Int := e.stepIndex
  let stepLabel :=
    if e.stepIndex ≤ 0 then ""
    else if total ≤ e.stepIndex then s!"[{total}/{total}] "
    else s!"[{idx}/{total}] "
  { statusText := stepLabel ++ activeSnap.text
    prevDisabled := decide (e.stepIndex ≤ 0) || e.animation.isSome
    nextDisabled :=
      decide ((e.snapshots.length : Int) - 1 ≤ e.stepIndex) || e.animation.isSome }

/-- The render pass as an operation on the session: it produces the
display output and leaves every modelled session field unchanged. -/
def render (e : EngineState) : EngineState × RenderOutput :=
  (e, renderOutput e)

/-- `runStepAnimation(targetIndex)` (source lines 278-299), synchronous
part: with a transition already in flight, a non-forward target, or
reduced motion, the index snaps to the target immediately; otherwise a
fresh transition record is installed with progress 0.  `now` is the
`performance.now()` value read at the call. -/
def runStepAnimation (reduceMotion : Bool) (now : Int) (targetIndex : Int)
    (e : EngineState) : EngineState :=
  if e.animation.isSome ∨ targetIndex ≤ e.stepIndex ∨ reduceMotion then
    { e with stepIndex := targetIndex }
  else
    { e with animation := some { toIndex := targetIndex, startTs := now, progress := 0 } }

/-- `stepForward()` (source lines 267-270). -/
def stepForward (reduceMotion : Bool) (now : Int) (e : EngineState) : EngineState :=
  if (e.snapshots.length : Int) - 1 ≤ e.stepIndex ∨ e.animation.isSome then e
  else runStepAnimation reduceMotion now (e.stepIndex + 1) e

/-- `stepBackward()` (source lines 272-276). -/
def stepBackward (e : EngineState) : EngineState :=
  if e.stepIndex ≤ 0 ∨ e.animation.isSome then e
  else { e with stepIndex := e.stepIndex - 1 }

/-- One `tick(ts)` of the transition animation frame loop (source lines
287-296): recompute the clamped progress fraction; at progress `≥ 1` the
index snaps to the target and the transition is cleared, otherwise the
updated progress is stored. -/
def tick (animationMs : Int) (ts : Int) (e : EngineState) : EngineState :=
  match e.animation with
  | none => e
  | some t =>
    let p := clamp01 (((ts - t.startTs : Int) : ℚ) / (animationMs : ℚ))
    if 1 ≤ p then { e with stepIndex := t.toIndex, animation := none }
    else { e with animation := some { t with progress := p } }

/-- `resetToStart(shouldRebuild)` (source lines 228-237).  `rebuilt` is
the value the factory returns when re-invoked on this call.  The second
component records whether `render()` ran (the failed-rebuild early
return skips it). -/
def resetToStart (shouldRebuild : Bool) (rebuilt : SnapResult)
    (e : EngineState) : EngineState × Bool :=
  if shouldRebuild then
    if !rebuilt.isValid then (e, false)
    else ({ snapshots := rebuilt.toList, stepIndex := 0, animation := none }, true)
  else ({ e with stepIndex := 0, animation := none }, true)

/-- The autoplay wiring `isBusy: () => state.animation !== null`
(source line 334). -/
def isBusy (e : EngineState) : Bool := e.animation.isSome

/-- The autoplay wiring `isDone: () => state.stepIndex >= snapshots.length - 1`
(source line 335). -/
def isDone (e : EngineState) : Bool :=
  decide ((e.snapshots.length : Int) - 1 ≤ e.stepIndex)

/-- The autoplay wiring `onStep` (source lines 336-339), textually the
same guard-then-`runStepAnimation` body as `stepForward`. -/
def autoplayOnStep (reduceMotion : Bool) (now : Int) (e : EngineState) : EngineState :=
  if (e.snapshots.length : Int) - 1 ≤ e.stepIndex ∨ e.animation.isSome then e
  else runStepAnimation reduceMotion now (e.stepIndex + 1) e

/-- Autoplay configuration: `stepInterval` and `donePause` in ms. -/
structure AutoCfg where
  stepInterval : Int
  donePause : Int
deriving DecidableEq

/-- The constants wired by `createSnapshotVisualization`
(source lines 331-332). -/
def wiredCfg : AutoCfg := { stepInterval := 1000, donePause := 1800 }

/-- The autoplay scheduler's own mutable state (`prev`, `acc`,
`pauseUntil`, source lines 106-108). -/
structure AutoState where
  prev : Int
  acc : Int
  pauseUntil : Int
deriving DecidableEq

/-- `createVisualizationAutoplaySkill` (source lines 93-185): with
`enabled` false it returns an inert stop-only handle and never schedules
a tick (`none`); otherwise the loop starts from `prev = acc =
pauseUntil = 0`. -/
def createVisualizationAutoplaySkill (enabled : Bool) : Option AutoState :=
  if enabled then some { prev := 0, acc := 0, pauseUntil := 0 } else none

/-- One invocation of the autoplay `loop` (source lines 117-173) at
timestamp `ts` with page/panel activity `active`, acting on the paired
scheduler and engine state.  `onStep` and `onReset` are the closures
wired at source lines 336-342, with `rebuilt` the factory result should
`onReset` rebuild. -/
def autoplayLoop (cfg : AutoCfg) (reduceMotion shouldRebuild : Bool)
    (rebuilt : SnapResult) (active : Bool) (ts : Int)
    (s : AutoState × EngineState) : AutoState × EngineState :=
  let a := s.1
  let e := s.2
  if !active then ({ a with prev := ts, acc := 0 }, e)
  else if a.prev = 0 then ({ a with prev := ts }, e)
  else
    let dt := min 250 (ts - a.prev)
    let a1 := { a with prev := ts }
    if ts < a1.pauseUntil then (a1, e)
    else if isBusy e then (a1, e)
    else
      let acc1 := a1.acc + dt
      if acc1 < cfg.stepInterval then ({ a1 with acc := acc1 }, e)
      else
        let a2 := { a1 with acc := Int.tmod acc1 cfg.stepInterval }
        if isDone e then
          ({ a2 with pauseUntil := ts + cfg.donePause },
           (resetToStart shouldRebuild rebuilt e).1)
        else
          let e1 := autoplayOnStep reduceMotion ts e
          if isDone e1 then ({ a2 with pauseUntil := ts + cfg.donePause }, e1)
          else (a2, e1)

/-- Folding the autoplay loop over a schedule of `(active, ts)` tick
inputs. -/
def runTicks (cfg : AutoCfg) (reduceMotion shouldRebuild : Bool)
    (rebuilt : SnapResult) (ticks : List (Bool × Int))
    (s : AutoState × EngineState) : AutoState × EngineState :=
  ticks.foldl
    (fun acc p => autoplayLoop cfg reduceMotion shouldRebuild rebuilt p.1 p.2 acc) s

/-- The overall outcome of `createSnapshotVisualization` construction
(source lines 197-344), restricted to the snapshot-factory branch: the
status sink contents, the three controls' disabled flags, the session
state when one is created, and the autoplay handle when one is started. -/
structure InitOutcome where
  statusText : String
  statusIsError : Bool
  prevDisabled : Bool
  nextDisabled : Bool
  resetDisabled : Bool
  session : Option EngineState
  autoplay : Option AutoState
deriving DecidableEq

/-- `createSnapshotVisualization` (source lines 216-343), given the
reduced-motion preference and the factory's construction-time result.
The DOM-lookup and 2D-context preconditions (lines 201-214) are assumed
met; the invalid-factory branch is lines 218-225, the success branch
builds the session, performs the initial render (line 327) and wires
autoplay with `enabled: !reduceMotion` (lines 329-343). -/
def createSnapshotVisualization (reduceMotion : Bool) (built : SnapResult) :
    InitOutcome :=
  if !built.isValid then
    { statusText := "No snapshots to display."
      statusIsError := true
      prevDisabled := true
      nextDisabled := true
      resetDisabled := true
      session := none
      autoplay := none }
  else
    let e0 : EngineState := { snapshots := built.toList, stepIndex := 0, animation := none }
    let out := renderOutput e0
    { statusText := out.statusText
      statusIsError := false
      prevDisabled := out.prevDisabled
      nextDisabled := out.nextDisabled
      resetDisabled := false
      session := some e0
      autoplay := createVisualizationAutoplaySkill (!reduceMotion) }

/-- The session invariant: the index stays within `[0, N-1]` and any
in-flight transition targets an index within `[0, N-1]`. -/
def SessionInv (e : EngineState) : Prop :=
  0 ≤ e.stepIndex ∧ e.stepIndex ≤ (e.snapshots.length : Int) - 1 ∧
    ∀ t ∈ e.animation, 0 ≤ t.toIndex ∧ t.toIndex ≤ (e.snapshots.length : Int) - 1

instance (e : EngineState) : Decidable (SessionInv e) := by
  unfold SessionInv
  infer_instance

/-! ### Helper lemmas -/

/-- The wired autoplay `onStep` is textually the `stepForward` body. -/
theorem autoplayOnStep_eq_stepForward (rm : Bool) (now : Int) (e : EngineState) :
    autoplayOnStep rm now e = stepForward rm now e := rfl

theorem snapResult_valid_length {r : SnapResult} (h : r.isValid = true) :
    1 ≤ (r.toList.length : Int) := by
  cases r with
  | arr xs =>
    have h' : xs.length ≠ 0 := by
      intro h0
      simp [SnapResult.isValid, h0] at h
    simp [SnapResult.toList]
    omega
  | nonArray => simp [SnapResult.isValid] at h

/-- An autoplay tick while the page/panel is inactive: the timing state
is rebased and the engine is untouched. -/
theorem autoplayLoop_inactive (cfg : AutoCfg) (rm sr : Bool) (r : SnapResult)
    (ts : Int) (a : AutoState) (e : EngineState) :
    autoplayLoop cfg rm sr r false ts (a, e) = ({ a with prev := ts, acc := 0 }, e) := by
  simp [autoplayLoop]

/-- The very first active tick only records the timestamp. -/
theorem autoplayLoop_first (cfg : AutoCfg) (rm sr : Bool) (r : SnapResult)
    (ts : Int) (a : AutoState) (e : EngineState) (h : a.prev = 0) :
    autoplayLoop cfg rm sr r true ts (a, e) = ({ a with prev := ts }, e) := by
  simp [autoplayLoop, h]

/-- An active tick during the done pause: only `prev` moves. -/
theorem autoplayLoop_paused (cfg : AutoCfg) (rm sr : Bool) (r : SnapResult)
    (ts : Int) (a : AutoState) (e : EngineState)
    (h0 : ¬ a.prev = 0) (hp : ts < a.pauseUntil) :
    autoplayLoop cfg rm sr r true ts (a, e) = ({ a with prev := ts }, e) := by
  simp [autoplayLoop, h0, hp]

/-- Whenever a transition is in flight, an autoplay tick leaves the
engine untouched (it is dropped by one of the early guards or by the
`isBusy` check). -/
theorem autoplayLoop_busy_engine (cfg : AutoCfg) (rm sr act : Bool) (r : SnapResult)
    (ts : Int) (a : AutoState) (e : EngineState) (hb : isBusy e = true) :
    (autoplayLoop cfg rm sr r act ts (a, e)).2 = e := by
  simp only [autoplayLoop, hb]
  split_ifs <;> rfl

/-- An active, unpaused, non-busy tick that has not yet accumulated a
full step interval: time accrues, the engine is untouched. -/
theorem autoplayLoop_accum (cfg : AutoCfg) (rm sr : Bool) (r : SnapResult)
    (ts : Int) (a : AutoState) (e : EngineState)
    (h0 : ¬ a.prev = 0) (hp : ¬ ts < a.pauseUntil) (hb : isBusy e = false)
    (hlt : a.acc + min 250 (ts - a.prev) < cfg.stepInterval) :
    autoplayLoop cfg rm sr r true ts (a, e)
      = ({ a with prev := ts, acc := a.acc + min 250 (ts - a.prev) }, e) := by
  simp [autoplayLoop, h0, hp, hb, hlt]

/-- The tick on which a full step interval has accumulated while the
session sits at the terminal snapshot: the reset closure runs and the
done pause is armed. -/
theorem autoplayLoop_done (cfg : AutoCfg) (rm sr : Bool) (r : SnapResult)
    (ts : Int) (a : AutoState) (e : EngineState)
    (h0 : ¬ a.prev = 0) (hp : ¬ ts < a.pauseUntil) (hb : isBusy e = false)
    (hge : ¬ a.acc + min 250 (ts - a.prev) < cfg.stepInterval)
    (hd : isDone e = true) :
    autoplayLoop cfg rm sr r true ts (a, e)
      = ({ a with
            prev := ts
            acc := Int.tmod (a.acc + min 250 (ts - a.prev)) cfg.stepInterval
            pauseUntil := ts + cfg.donePause },
         (resetToStart sr r e).1) := by
  simp [autoplayLoop, h0, hp, hb, hge, hd]

/-- The tick on which a full step interval has accumulated mid-sequence:
the step closure runs. -/
theorem autoplayLoop_step (cfg : AutoCfg) (rm sr : Bool) (r : SnapResult)
    (ts : Int) (a : AutoState) (e : EngineState)
    (h0 : ¬ a.prev = 0) (hp : ¬ ts < a.pauseUntil) (hb : isBusy e = false)
    (hge : ¬ a.acc + min 250 (ts - a.prev) < cfg.stepInterval)
    (hd : isDone e = false) (hd2 : isDone (autoplayOnStep rm ts e) = false) :
    autoplayLoop cfg rm sr r true ts (a, e)
      = ({ a with
            prev := ts
            acc := Int.tmod (a.acc + min 250 (ts - a.prev)) cfg.stepInterval },
         autoplayOnStep rm ts e) := by
  simp [autoplayLoop, h0, hp, hb, hge, hd, hd2]

theorem sessionInv_runStepAnimation (rm : Bool) (now target : Int) (e : EngineState)
    (h : SessionInv e) (h0 : 0 ≤ target)
    (h1 : target ≤ (e.snapshots.length : Int) - 1) :
    SessionInv (runStepAnimation rm now target e) := by
  obtain ⟨ha, hb, hc⟩ := h
  unfold runStepAnimation
  split_ifs with hg
  · exact ⟨h0, h1, by simpa using hc⟩
  · refine ⟨ha, hb, ?_⟩
    intro t ht
    simp only [Option.mem_def, Option.some.injEq] at ht
    subst ht
    exact ⟨h0, h1⟩

theorem sessionInv_stepForward (rm : Bool) (now : Int) (e : EngineState)
    (h : SessionInv e) : SessionInv (stepForward rm now e) := by
  unfold stepForward
  split_ifs with hg
  · exact h
  · push_neg at hg
    refine sessionInv_runStepAnimation rm now (e.stepIndex + 1) e h
      (by have := h.1; omega) ?_
    have := hg.1
    omega

theorem sessionInv_stepBackward (e : EngineState) (h : SessionInv e) :
    SessionInv (stepBackward e) := by
  obtain ⟨ha, hb, hc⟩ := h
  unfold stepBackward
  split_ifs with hg
  · exact ⟨ha, hb, hc⟩
  · push_neg at hg
    refine ⟨?_, ?_, ?_⟩
    · dsimp only
      have := hg.1
      omega
    · dsimp only
      omega
    · intro t ht
      exact hc t ht

theorem sessionInv_resetToStart (sr : Bool) (r : SnapResult) (e : EngineState)
    (h : SessionInv e) : SessionInv (resetToStart sr r e).1 := by
  unfold resetToStart
  split_ifs with h1 h2
  · exact h
  · refine ⟨le_refl 0, ?_, ?_⟩
    · have := snapResult_valid_length (r := r) (by simpa using h2)
      simpa using this
    · intro t ht
      simp at ht
  · refine ⟨le_refl 0, ?_, ?_⟩
    · have h01 := h.1
      have h02 := h.2.1
      simp only []
      omega
    · intro t ht
      simp at ht

theorem sessionInv_tick (ams ts : Int) (e : EngineState) (h : SessionInv e) :
    SessionInv (tick ams ts e) := by
  unfold tick
  cases hA : e.animation with
  | none => exact h
  | some t =>
    have ht := h.2.2 t (by simp [hA])
    dsimp only
    split_ifs with hp
    · exact ⟨ht.1, ht.2, fun t' ht' => by simp at ht'⟩
    · refine ⟨h.1, h.2.1, ?_⟩
      intro t' ht'
      simp only [Option.mem_def, Option.some.injEq] at ht'
      subst ht'
      simpa using ht

theorem sessionInv_autoplayLoop (cfg : AutoCfg) (rm sr act : Bool) (r : SnapResult)
    (ts : Int) (a : AutoState) (e : EngineState) (h : SessionInv e) :
    SessionInv (autoplayLoop cfg rm sr r act ts (a, e)).2 := by
  have hstep : SessionInv (autoplayOnStep rm ts e) := by
    rw [autoplayOnStep_eq_stepForward]
    exact sessionInv_stepForward rm ts e h
  simp only [autoplayLoop]
  split_ifs <;>
    first
      | exact h
      | exact sessionInv_resetToStart sr r e h
      | exact hstep

/-! ### Sample states for the concrete witnesses -/

def sampleSeq : List Snapshot := [⟨"A"⟩, ⟨"B"⟩, ⟨"C"⟩, ⟨"D"⟩]

def sampleMid : EngineState := ⟨sampleSeq, 1, none⟩

def sampleAnimating : EngineState := ⟨sampleSeq, 1, some ⟨2, 100, 0⟩⟩

/-! ### Claims -/

/-- C1: for every session built from a non-empty snapshot sequence that
satisfies the session invariant `0 ≤ stepIndex ≤ N-1` (with any
in-flight transition target also in bounds), the invariant still holds
after every operation: step-forward, step-backward, reset in either
mode, a transition animation tick, a render pass, and an autoplay
scheduler tick.  In particular step-forward never moves the index past
`N-1` and step-backward never moves it below `0`. -/
theorem c1_monotonic_bounds (e : EngineState) (h : SessionInv e)
    (rm sr act : Bool) (now ts tts ams : Int) (r : SnapResult)
    (cfg : AutoCfg) (a : AutoState) :
    SessionInv (stepForward rm now e) ∧
    SessionInv (stepBackward e) ∧
    SessionInv (resetToStart sr r e).1 ∧
    SessionInv (tick ams tts e) ∧
    SessionInv (render e).1 ∧
    SessionInv (autoplayLoop cfg rm sr r act ts (a, e)).2 :=
  ⟨sessionInv_stepForward rm now e h, sessionInv_stepBackward e h,
   sessionInv_resetToStart sr r e h, sessionInv_tick ams tts e h, h,
   sessionInv_autoplayLoop cfg rm sr act r ts a e h⟩

theorem c1_monotonic_bounds_witness :
    SessionInv (stepForward false 50 sampleMid) ∧
    SessionInv (stepBackward sampleMid) :=
  ⟨(c1_monotonic_bounds sampleMid (by decide) false false true 50 60 70 700
      (.arr sampleSeq) wiredCfg ⟨0, 0, 0⟩).1,
   (c1_monotonic_bounds sampleMid (by decide) false false true 50 60 70 700
      (.arr sampleSeq) wiredCfg ⟨0, 0, 0⟩).2.1⟩

/-- C2: while a transition is in flight, a second step-forward — from
the UI operation or from the autoplay scheduler (both as the wired
`onStep` closure and as a whole scheduler tick) — is dropped, leaving
the session state, including the in-flight transition record, its
target index, and the current step index, unchanged. -/
theorem c2_mutual_exclusion (e : EngineState) (t : Transition)
    (h : e.animation = some t) (rm sr act : Bool) (now ts : Int)
    (cfg : AutoCfg) (r : SnapResult) (a : AutoState) :
    stepForward rm now e = e ∧
    autoplayOnStep rm ts e = e ∧
    (autoplayLoop cfg rm sr r act ts (a, e)).2 = e := by
  have hb : isBusy e = true := by simp [isBusy, h]
  refine ⟨?_, ?_, autoplayLoop_busy_engine cfg rm sr act r ts a e hb⟩
  · simp [stepForward, h]
  · simp [autoplayOnStep, h]

theorem c2_mutual_exclusion_witness :
    stepForward false 200 sampleAnimating = sampleAnimating ∧
    autoplayOnStep false 200 sampleAnimating = sampleAnimating :=
  ⟨(c2_mutual_exclusion sampleAnimating ⟨2, 100, 0⟩ rfl false false true 200 200
      wiredCfg (.arr sampleSeq) ⟨0, 0, 0⟩).1,
   (c2_mutual_exclusion sampleAnimating ⟨2, 100, 0⟩ rfl false false true 200 200
      wiredCfg (.arr sampleSeq) ⟨0, 0, 0⟩).2.1⟩

/-- C3: on the animation tick where the clamped progress fraction of
the in-flight transition reaches 1, the step index is set to the
transition's target index and the transition record is cleared. -/
theorem c3_transition_completion (e : EngineState) (t : Transition)
    (ams ts : Int) (h : e.animation = some t)
    (hp : 1 ≤ clamp01 (((ts - t.startTs : Int) : ℚ) / (ams : ℚ))) :
    (tick ams ts e).stepIndex = t.toIndex ∧ (tick ams ts e).animation = none := by
  unfold tick
  rw [h]
  dsimp only
  rw [if_pos hp]
  exact ⟨rfl, rfl⟩

theorem c3_transition_completion_witness :
    (tick 700 800 sampleAnimating).stepIndex = 2 ∧
    (tick 700 800 sampleAnimating).animation = none :=
  c3_transition_completion sampleAnimating ⟨2, 100, 0⟩ 700 800 rfl
    (by norm_num [clamp01, jsMin, jsMax])

/-- A reset whose rebuild (if any) succeeded lands on index 0 with no
transition. -/
theorem resetToStart_ok (sr : Bool) (r : SnapResult) (e : EngineState)
    (hr : sr = true → r.isValid = true) :
    (resetToStart sr r e).1.stepIndex = 0 ∧
    (resetToStart sr r e).1.animation = none := by
  cases sr with
  | false => simp [resetToStart]
  | true => simp [resetToStart, hr rfl]

/-- Unfolding one tick of a schedule. -/
theorem runTicks_cons (cfg : AutoCfg) (rm sr act : Bool) (r : SnapResult)
    (t : Int) (L : List (Bool × Int)) (s : AutoState × EngineState) :
    runTicks cfg rm sr r ((act, t) :: L) s
      = runTicks cfg rm sr r L (autoplayLoop cfg rm sr r act t s) := rfl

/-- The 120 ms tick cadence covering the 1800 ms done pause, starting
right after the session reached the terminal snapshot at `t = 9000`. -/
def terminalSchedule : List (Bool × Int) :=
  (List.range 15).map (fun k => (true, 9000 + 120 * (k + 1)))

/-- C4: (i) on the autoplay tick that fires with the session at the
terminal snapshot (pause expired, a full step interval accumulated, no
transition in flight), the reset operation runs — the session lands on
index 0 with no transition — and the scheduler then idles for the
configured done-pause duration (`pauseUntil = ts + donePause`) before
stepping again; (ii) while that pause is pending, ticks leave the
engine untouched; (iii) concretely, with the wired constants
(interval 1000, done pause 1800) and the 120 ms cadence, advancing a
further 1800 ms after reaching the terminal index of an `["A","B"]`
session triggers the reset back to index 0. -/
theorem c4_autoplay_done_reset (cfg : AutoCfg) (rm sr : Bool) (r : SnapResult)
    (ts : Int) (a : AutoState) (e : EngineState)
    (h0 : ¬ a.prev = 0) (hp : ¬ ts < a.pauseUntil) (hb : isBusy e = false)
    (hge : ¬ a.acc + min 250 (ts - a.prev) < cfg.stepInterval)
    (hd : isDone e = true) (hr : sr = true → r.isValid = true) :
    ((autoplayLoop cfg rm sr r true ts (a, e)).2.stepIndex = 0 ∧
     (autoplayLoop cfg rm sr r true ts (a, e)).2.animation = none ∧
     (autoplayLoop cfg rm sr r true ts (a, e)).1.pauseUntil = ts + cfg.donePause) ∧
    (∀ (a' : AutoState) (e' : EngineState) (ts' : Int),
        ¬ a'.prev = 0 → ts' < a'.pauseUntil →
        (autoplayLoop cfg rm sr r true ts' (a', e')).2 = e') ∧
    (runTicks wiredCfg false false (.arr [⟨"A"⟩, ⟨"B"⟩]) terminalSchedule
        (⟨9000, 0, 0⟩, ⟨[⟨"A"⟩, ⟨"B"⟩], 1, none⟩)).2.stepIndex = 0 := by
  refine ⟨?_, ?_, by decide⟩
  · rw [autoplayLoop_done cfg rm sr r ts a e h0 hp hb hge hd]
    have hok := resetToStart_ok sr r e hr
    exact ⟨hok.1, hok.2, rfl⟩
  · intro a' e' ts' h0' hp'
    rw [autoplayLoop_paused cfg rm sr r ts' a' e' h0' hp']

theorem c4_autoplay_done_reset_witness :
    (autoplayLoop wiredCfg false false .nonArray true 9120
        (⟨9000, 900, 0⟩, ⟨[⟨"A"⟩, ⟨"B"⟩], 1, none⟩)).2.stepIndex = 0 ∧
    (autoplayLoop wiredCfg false false .nonArray true 9120
        (⟨9000, 900, 0⟩, ⟨[⟨"A"⟩, ⟨"B"⟩], 1, none⟩)).2.animation = none ∧
    (autoplayLoop wiredCfg false false .nonArray true 9120
        (⟨9000, 900, 0⟩, ⟨[⟨"A"⟩, ⟨"B"⟩], 1, none⟩)).1.pauseUntil
      = 9120 + wiredCfg.donePause :=
  (c4_autoplay_done_reset wiredCfg false false .nonArray 9120 ⟨9000, 900, 0⟩
    ⟨[⟨"A"⟩, ⟨"B"⟩], 1, none⟩ (by decide) (by decide) rfl (by decide) (by decide)
    (by decide)).1

/-- A schedule in which the page is reported not-visible. -/
def inactiveTicks (tsl : List Int) : List (Bool × Int) :=
  tsl.map (fun t => (false, t))

/-- While inactive, any run of autoplay ticks leaves the engine
(step index and transition state alike) untouched. -/
theorem runTicks_inactive_engine (cfg : AutoCfg) (rm sr : Bool) (r : SnapResult)
    (tsl : List Int) (a : AutoState) (e : EngineState) :
    (runTicks cfg rm sr r (inactiveTicks tsl) (a, e)).2 = e := by
  induction tsl generalizing a with
  | nil => rfl
  | cons t l ih =>
    have hstep : inactiveTicks (t :: l) = (false, t) :: inactiveTicks l := rfl
    rw [hstep, runTicks_cons, autoplayLoop_inactive]
    exact ih _

/-- C6: (i) while the page/panel is reported inactive, advancing time by
any amount — any schedule of inactive ticks — changes neither the step
index nor the transition state (the engine component is untouched, so no
`onStep` or `onReset` effect ever lands); (ii) after visibility resumes
(an inactive tick at `t = 5000` rebases the clock), advancing one wired
step interval (1000 ms) of active time produces exactly one step: the
ticks at 5250/5500/5750 leave the engine unchanged and the tick at 6000
initiates a single forward step to `stepIndex + 1`. -/
theorem c6_suspension_honesty :
    (∀ (cfg : AutoCfg) (rm sr : Bool) (r : SnapResult) (tsl : List Int)
        (a : AutoState) (e : EngineState),
        (runTicks cfg rm sr r (inactiveTicks tsl) (a, e)).2 = e) ∧
    (∀ (sr : Bool) (r : SnapResult) (a : AutoState) (e : EngineState),
        a.pauseUntil = 0 → e.animation = none → isDone e = false →
        (runTicks wiredCfg false sr r
            [(false, 5000), (true, 5250), (true, 5500), (true, 5750)] (a, e)).2 = e ∧
        runTicks wiredCfg false sr r
            [(false, 5000), (true, 5250), (true, 5500), (true, 5750), (true, 6000)]
            (a, e)
          = (⟨6000, 0, 0⟩, { e with animation := some ⟨e.stepIndex + 1, 6000, 0⟩ })) := by
  constructor
  · exact fun cfg rm sr r tsl a e => runTicks_inactive_engine cfg rm sr r tsl a e
  · intro sr r a e ha hA hd
    obtain ⟨p, c, q⟩ := a
    have hq : q = 0 := ha
    subst hq
    have hb : isBusy e = false := by simp [isBusy, hA]
    have hs0 : autoplayLoop wiredCfg false sr r false 5000 (⟨p, c, 0⟩, e)
        = (⟨5000, 0, 0⟩, e) := by
      rw [autoplayLoop_inactive]
    have hs1 : autoplayLoop wiredCfg false sr r true 5250 (⟨5000, 0, 0⟩, e)
        = (⟨5250, 250, 0⟩, e) := by
      rw [autoplayLoop_accum wiredCfg false sr r 5250 ⟨5000, 0, 0⟩ e
        (by decide) (by decide) hb (by decide)]
      exact congrArg (fun x => (x, e)) (by decide)
    have hs2 : autoplayLoop wiredCfg false sr r true 5500 (⟨5250, 250, 0⟩, e)
        = (⟨5500, 500, 0⟩, e) := by
      rw [autoplayLoop_accum wiredCfg false sr r 5500 ⟨5250, 250, 0⟩ e
        (by decide) (by decide) hb (by decide)]
      exact congrArg (fun x => (x, e)) (by decide)
    have hs3 : autoplayLoop wiredCfg false sr r true 5750 (⟨5500, 500, 0⟩, e)
        = (⟨5750, 750, 0⟩, e) := by
      rw [autoplayLoop_accum wiredCfg false sr r 5750 ⟨5500, 500, 0⟩ e
        (by decide) (by decide) hb (by decide)]
      exact congrArg (fun x => (x, e)) (by decide)
    have hdont : ¬ (e.snapshots.length : Int) - 1 ≤ e.stepIndex := by
      simpa [isDone] using hd
    have hstep : autoplayOnStep false 6000 e
        = { e with animation := some ⟨e.stepIndex + 1, 6000, 0⟩ } := by
      rw [autoplayOnStep, if_neg (by rw [hA]; simpa using hdont),
        runStepAnimation, if_neg (by rw [hA]; simp)]
    have hd2 : isDone (autoplayOnStep false 6000 e) = false := by
      rw [hstep]
      simpa [isDone] using hd
    have hs4 : autoplayLoop wiredCfg false sr r true 6000 (⟨5750, 750, 0⟩, e)
        = (⟨6000, 0, 0⟩, autoplayOnStep false 6000 e) := by
      rw [autoplayLoop_step wiredCfg false sr r 6000 ⟨5750, 750, 0⟩ e
        (by decide) (by decide) hb (by decide) hd hd2]
      exact congrArg (fun x => (x, autoplayOnStep false 6000 e)) (by decide)
    constructor
    · rw [runTicks_cons, hs0, runTicks_cons, hs1, runTicks_cons, hs2,
        runTicks_cons, hs3]
      rfl
    · rw [runTicks_cons, hs0, runTicks_cons, hs1, runTicks_cons, hs2,
        runTicks_cons, hs3, runTicks_cons, hs4, hstep]
      rfl

theorem c6_suspension_honesty_witness :
    runTicks wiredCfg false false (.arr sampleSeq)
        [(false, 5000), (true, 5250), (true, 5500), (true, 5750), (true, 6000)]
        (⟨0, 0, 0⟩, sampleMid)
      = (⟨6000, 0, 0⟩,
         { sampleMid with animation := some ⟨sampleMid.stepIndex + 1, 6000, 0⟩ }) :=
  ((c6_suspension_honesty.2 false (.arr sampleSeq) ⟨0, 0, 0⟩ sampleMid rfl rfl
    (by decide)).2)

/-- C5: reset always lands on step index 0 with no transition in
flight.  Rewind mode acts against the same (unchanged) sequence and is
idempotent; rebuild mode — when the factory returns a usable sequence —
installs the freshly built sequence while still leaving the index at 0. -/
theorem c5_reset_contract (e : EngineState) (r : SnapResult) :
    ((resetToStart false r e).1.stepIndex = 0 ∧
     (resetToStart false r e).1.animation = none ∧
     (resetToStart false r e).1.snapshots = e.snapshots ∧
     resetToStart false r ((resetToStart false r e).1) = resetToStart false r e) ∧
    (r.isValid = true →
      (resetToStart true r e).1.stepIndex = 0 ∧
      (resetToStart true r e).1.animation = none ∧
      (resetToStart true r e).1.snapshots = r.toList) := by
  constructor
  · refine ⟨?_, ?_, ?_, ?_⟩ <;> simp [resetToStart]
  · intro hv
    simp [resetToStart, hv]

theorem c5_reset_contract_witness :
    (resetToStart true (.arr sampleSeq) sampleAnimating).1.stepIndex = 0 ∧
    (resetToStart true (.arr sampleSeq) sampleAnimating).1.animation = none ∧
    (resetToStart true (.arr sampleSeq) sampleAnimating).1.snapshots
      = SnapResult.toList (.arr sampleSeq) :=
  (c5_reset_contract sampleAnimating (.arr sampleSeq)).2 (by decide)

/-- C7: with the reduced-motion preference active, step-forward always
resolves synchronously: no transition record is ever created (neither
by `runStepAnimation` nor `stepForward`), an accepted step advances the
index immediately by one, and autoplay never starts — the factory,
wired with `enabled := !reduceMotion`, returns the inert handle and
schedules no tick. -/
theorem c7_reduced_motion (e : EngineState) (now target : Int) (r : SnapResult) :
    (runStepAnimation true now target e).animation = e.animation ∧
    (stepForward true now e).animation = e.animation ∧
    (e.animation = none → e.stepIndex < (e.snapshots.length : Int) - 1 →
      stepForward true now e = { e with stepIndex := e.stepIndex + 1 }) ∧
    createVisualizationAutoplaySkill (!true) = none ∧
    (createSnapshotVisualization true r).autoplay = none := by
  refine ⟨?_, ?_, ?_, rfl, ?_⟩
  · simp [runStepAnimation]
  · unfold stepForward
    split_ifs
    · rfl
    · simp [runStepAnimation]
  · intro hA hlt
    rw [stepForward, if_neg (by rw [hA]; simp; omega), runStepAnimation,
      if_pos (by simp)]
  · simp only [createSnapshotVisualization]
    split_ifs <;> rfl

theorem c7_reduced_motion_witness :
    stepForward true 40 sampleMid = { sampleMid with stepIndex := sampleMid.stepIndex + 1 } :=
  (c7_reduced_motion sampleMid 40 3 (.arr sampleSeq)).2.2.1 rfl (by decide)

/-- C8: a factory returning an empty array or a non-array value at
construction time puts the engine in the permanently disabled error
state and nothing else: the error message lands in the status sink with
the error class set, all three controls are disabled, and no session
state, render loop, or autoplay handle is ever created. -/
theorem c8_construction_failure (rm : Bool) (r : SnapResult)
    (h : r.isValid = false) :
    createSnapshotVisualization rm r =
      { statusText := "No snapshots to display."
        statusIsError := true
        prevDisabled := true
        nextDisabled := true
        resetDisabled := true
        session := none
        autoplay := none } := by
  simp [createSnapshotVisualization, h]

theorem c8_construction_failure_witness :
    createSnapshotVisualization false (.arr []) =
      { statusText := "No snapshots to display."
        statusIsError := true
        prevDisabled := true
        nextDisabled := true
        resetDisabled := true
        session := none
        autoplay := none } :=
  c8_construction_failure false (.arr []) rfl

/-- C9: step-backward never creates a transition; when its
preconditions hold (positive index, no transition in flight) it
resolves immediately by decrementing the index by exactly one, and when
the index is at 0 or a transition is in flight it is a silent no-op
leaving all session state unchanged. -/
theorem c9_step_backward (e : EngineState) :
    (stepBackward e).animation = e.animation ∧
    (0 < e.stepIndex → e.animation = none →
      stepBackward e = { e with stepIndex := e.stepIndex - 1 }) ∧
    (e.stepIndex ≤ 0 ∨ e.animation.isSome → stepBackward e = e) := by
  refine ⟨?_, ?_, ?_⟩
  · unfold stepBackward
    split_ifs <;> rfl
  · intro h0 hA
    rw [stepBackward, if_neg (by rw [hA]; simp; omega)]
  · intro hg
    rw [stepBackward, if_pos hg]

theorem c9_step_backward_witness :
    stepBackward sampleMid = { sampleMid with stepIndex := sampleMid.stepIndex - 1 } ∧
    stepBackward sampleAnimating = sampleAnimating :=
  ⟨(c9_step_backward sampleMid).2.1 (by decide) rfl,
   (c9_step_backward sampleAnimating).2.2 (by simp [sampleAnimating])⟩

/-- C10: when a rebuild-mode reset's factory call returns an empty
array or a non-array value, the reset is a complete, atomic no-op: the
previously built sequence, the step index, and any in-flight transition
stay exactly as they were, and no render pass runs. -/
theorem c10_rebuild_failure_noop (e : EngineState) (r : SnapResult)
    (h : r.isValid = false) :
    resetToStart true r e = (e, false) := by
  simp [resetToStart, h]

theorem c10_rebuild_failure_noop_witness :
    resetToStart true .nonArray sampleAnimating = (sampleAnimating, false) :=
  c10_rebuild_failure_noop sampleAnimating .nonArray rfl

end Viz
